import Mathlib

/-!
Verification development for the ctxopt repository (Rust).

The definitions below are a shallow embedding of the code in
`packages/ctxopt-core/src`:

* `PtyError`, `PtySize`, `PtyManager` and its operations embed
  `pty/manager.rs`.  Effectful OS calls are modelled by passing the
  outcome of the underlying call as an explicit argument
  (`Except IOError α`); `&self` methods pass the state through
  unchanged.
* `StreamAnalyzer` embeds `stream/analyzer.rs`.
* `RingBuffer` embeds `stream/buffer.rs`; `Vec::remove(0)`, which
  panics on an empty vector, is modelled by an `Option` result.

Machine integers (`u16` rows/cols, `u32` exit codes, `u8` bytes) are
modelled as `Nat`: none of the embedded code performs arithmetic on
them, it only moves them around, so overflow never enters the picture.
-/

/-- Kind of an underlying OS failure.  The embedded code inspects only
whether the failure is a would-block condition
(`std::io::ErrorKind::WouldBlock`); every other kind is treated
uniformly, so the model collapses them into `other`. -/
inductive IOErrorKind where
  | wouldBlock
  | other
deriving DecidableEq

/-- An underlying OS-level failure: its kind plus its rendered message
(what `e.to_string()` yields in the Rust code). -/
structure IOError where
  kind : IOErrorKind
  msg : String
deriving DecidableEq

/-- Error enum of `pty/manager.rs` (`PtyError`).  As in the source,
`CreateError`, `SpawnError`, `ReadError` and `WriteError` carry only a
`String` (the code always builds them from `e.to_string()`), while
`IoError` carries the underlying error value itself
(`#[from] std::io::Error`). -/
inductive PtyError where
  | CreateError (msg : String)
  | SpawnError (msg : String)
  | ReadError (msg : String)
  | WriteError (msg : String)
  | ProcessExited
  | IoError (cause : IOError)
deriving DecidableEq

/-- The retrievable cause of a `PtyError`, as `std::error::Error::source`
would report it for the `thiserror` derive in the source: a variant has
a source exactly when its payload is marked `#[from]` or `#[source]`,
which in this enum is only `IoError`.  The `String`-payload variants
have no source. -/
def PtyError.source : PtyError → Option IOError
  | .IoError e => some e
  | _ => none

/-- Terminal size (`PtySize` in the source): rows and columns. -/
structure PtySize where
  rows : Nat
  cols : Nat
deriving DecidableEq

/-- Default terminal size, 24 rows by 80 columns (`Default for PtySize`). -/
def PtySize.default : PtySize := ⟨24, 80⟩

/-- State of a `PtyManager`.  The four OS resources (master handle,
writer, reader, child handle) are abstracted as numeric handles; `size`
is the cached `PtySize` field of the struct. -/
structure PtyManager where
  master : Nat
  writer : Nat
  reader : Nat
  child : Nat
  size : PtySize
deriving DecidableEq

/-- Command description assembled by `PtyManager::new` via
`CommandBuilder`: program, arguments, whether the ambient environment
was inherited, and the optional working directory. -/
structure CommandSpec where
  program : String
  args : List String
  envInherited : Bool
  cwd : Option String

/-- Command construction performed inside `PtyManager::new`: the
environment is always inherited, and the working directory is set only
when reading it succeeded (`if let Ok(cwd) = std::env::current_dir()`);
a failure is tolerated and simply omits `cwd`. -/
def buildCommand (command : String) (args : List String)
    (currentDir : Except IOError String) : CommandSpec :=
  { program := command
    args := args
    envInherited := true
    cwd := match currentDir with
      | .ok d => some d
      | .error _ => none }

/-- Outcomes of the underlying OS calls made by `PtyManager::new`, in
the order the code performs them: `openpty` (yielding the master
handle), `spawn_command` (yielding the child handle), `take_writer`,
`try_clone_reader`, and `std::env::current_dir`. -/
structure NewEnv where
  openpty : Except IOError Nat
  spawn : Except IOError Nat
  takeWriter : Except IOError Nat
  cloneReader : Except IOError Nat
  currentDir : Except IOError String

/-- Embedding of `PtyManager::new`: allocate the PTY pair
(failure ↦ `CreateError`), build the command (inheriting environment
and, best effort, the working directory), spawn the child
(failure ↦ `SpawnError`), take the writer and clone the reader
(failure ↦ `CreateError`), then package the four resources together
with the requested size. -/
def PtyManager.new (command : String) (args : List String) (env : NewEnv)
    (size : PtySize) : Except PtyError PtyManager :=
  match env.openpty with
  | .error e => .error (.CreateError e.msg)
  | .ok master =>
    let _cmd := buildCommand command args env.currentDir
    match env.spawn with
    | .error e => .error (.SpawnError e.msg)
    | .ok child =>
      match env.takeWriter with
      | .error e => .error (.CreateError e.msg)
      | .ok writer =>
        match env.cloneReader with
        | .error e => .error (.CreateError e.msg)
        | .ok reader =>
          .ok { master := master, writer := writer, reader := reader,
                child := child, size := size }

/-- Embedding of `PtyManager::read`.  The argument is the outcome of the
underlying `reader.read(&mut buffer)` call (at most 8 KiB of bytes on
success).  `Ok(0)` becomes an empty success, `Ok(n)` returns the `n`
bytes read, a would-block failure becomes an empty success, and any
other failure becomes `ReadError` with the rendered message. -/
def PtyManager.read (_self : PtyManager) (o : Except IOError (List Nat)) :
    Except PtyError (List Nat) :=
  match o with
  | .ok [] => .ok []
  | .ok bs => .ok bs
  | .error e =>
    if e.kind = IOErrorKind.wouldBlock then .ok []
    else .error (.ReadError e.msg)

/-- Outcome of awaiting the `tokio::task::spawn_blocking` join handle in
`PtyManager::read_async`: either the background task ran to completion,
or joining it failed with a message. -/
inductive JoinOutcome where
  | joined
  | joinFailed (msg : String)
deriving DecidableEq

/-- Body of the closure `PtyManager::read_async` off-loads to the
blocking thread: same match as `read` except that EVERY failure,
would-block included, becomes `ReadError`. -/
def readBlockingTask (o : Except IOError (List Nat)) :
    Except PtyError (List Nat) :=
  match o with
  | .ok [] => .ok []
  | .ok bs => .ok bs
  | .error e => .error (.ReadError e.msg)

/-- Embedding of `PtyManager::read_async`: a join failure of the
background task is mapped to `ReadError`; otherwise the result of the
off-loaded closure is returned as is. -/
def PtyManager.read_async (_self : PtyManager) (j : JoinOutcome)
    (o : Except IOError (List Nat)) : Except PtyError (List Nat) :=
  match j with
  | .joinFailed m => .error (.ReadError m)
  | .joined => readBlockingTask o

/-- Embedding of `PtyManager::write`: `writer.write_all(data)` either
delivers the whole buffer (`.ok`) or fails (its outcome is `wo`), then
`writer.flush()` runs (outcome `fo`).  As in the source, BOTH failure
paths are mapped to `WriteError` with the rendered message. -/
def PtyManager.write (_self : PtyManager) (_data : List Nat)
    (wo fo : Except IOError Unit) : Except PtyError Unit :=
  match wo with
  | .error e => .error (.WriteError e.msg)
  | .ok _ =>
    match fo with
    | .error e => .error (.WriteError e.msg)
    | .ok _ => .ok ()

/-- UTF-8 bytes of a string, as `str::as_bytes` exposes them. -/
def strBytes (s : String) : List Nat :=
  s.toUTF8.toList.map (fun b => b.toNat)

/-- Embedding of `PtyManager::write_str`: delegates to `write` on the
UTF-8 bytes of the string. -/
def PtyManager.write_str (self : PtyManager) (data : String)
    (wo fo : Except IOError Unit) : Except PtyError Unit :=
  self.write (strBytes data) wo fo

/-- Embedding of `PtyManager::wait`: the argument is the outcome of the
underlying `child.wait()` (a numeric exit status on success).  As in
the source, a failure is mapped to `SpawnError` — the enum has no
wait-specific variant. -/
def PtyManager.wait (o : Except IOError Nat) : Except PtyError Nat :=
  match o with
  | .error e => .error (.SpawnError e.msg)
  | .ok status => .ok status

/-- Embedding of `PtyManager::resize`.  The method takes `&self`: it can
mutate nothing, so the state is passed through unchanged on success —
in particular the cached `size` field is NOT updated.  The underlying
`master.resize(new_size.into())` outcome is `o`; as in the source, a
failure is mapped to `CreateError` — the enum has no resize-specific
variant, and the attempted dimensions are not recorded in the message. -/
def PtyManager.resize (self : PtyManager) (_new_size : PtySize)
    (o : Except IOError Unit) : Except PtyError (PtyManager × Unit) :=
  match o with
  | .error e => .error (.CreateError e.msg)
  | .ok _ => .ok (self, ())

/-- Embedding of `PtyManager::kill`: the argument is the outcome of the
underlying `child.kill()`.  As in the source, a failure is mapped to
`SpawnError` — the enum has no kill-specific variant. -/
def PtyManager.kill (o : Except IOError Unit) : Except PtyError Unit :=
  match o with
  | .error e => .error (.SpawnError e.msg)
  | .ok _ => .ok ()

/-- Concrete environment in which every OS call of `new` succeeds, used
to evaluate the construction path on a concrete input. -/
def envAllOk : NewEnv :=
  { openpty := .ok 1, spawn := .ok 2, takeWriter := .ok 3,
    cloneReader := .ok 4, currentDir := .ok "/" }

/-- The session `new "claude" [] envAllOk ⟨24, 80⟩` produces. -/
def session0 : PtyManager :=
  { master := 1, writer := 3, reader := 4, child := 2, size := ⟨24, 80⟩ }

/-- Content classification of `stream/analyzer.rs` (`ContentType`). -/
inductive ContentType where
  | BuildError
  | FileRead
  | LargeOutput
  | PromptReady
  | Normal
deriving DecidableEq

/-- Embedding of `StreamAnalyzer` (`stream/analyzer.rs`): the struct has
no fields (its body is a TODO placeholder). -/
structure StreamAnalyzer where
deriving DecidableEq

/-- Embedding of `StreamAnalyzer::new`. -/
def StreamAnalyzer.new : StreamAnalyzer := {}

/-- Embedding of `StreamAnalyzer::analyze`: the body ignores the chunk
and returns `ContentType::Normal`. -/
def StreamAnalyzer.analyze (_self : StreamAnalyzer) (_data : List Nat) :
    ContentType :=
  ContentType.Normal

/-- Embedding of `RingBuffer` (`stream/buffer.rs`): a capacity and the
retained bytes, stored oldest first as in the backing `Vec<u8>`. -/
structure RingBuffer where
  capacity : Nat
  data : List Nat
deriving DecidableEq

/-- Embedding of `RingBuffer::new`: the data vector starts empty
(`Vec::with_capacity` only reserves space). -/
def RingBuffer.new (capacity : Nat) : RingBuffer :=
  { capacity := capacity, data := [] }

/-- Model of `Vec::remove(0)`: removing the front element panics on an
empty vector, which the model renders as `none`. -/
def removeFront : List Nat → Option (List Nat)
  | [] => none
  | _ :: rest => some rest

/-- One iteration of the loop body of `RingBuffer::push`: when the
vector is at (or beyond) capacity the front byte is removed — a panic
if the vector is empty — and then the new byte is appended. -/
def RingBuffer.pushByte (b : RingBuffer) (byte : Nat) : Option RingBuffer :=
  match (if b.data.length ≥ b.capacity then removeFront b.data
         else some b.data) with
  | none => none
  | some d => some { b with data := d ++ [byte] }

/-- Embedding of `RingBuffer::push`: the loop over the input bytes,
propagating a panic of any iteration. -/
def RingBuffer.push (b : RingBuffer) : List Nat → Option RingBuffer
  | [] => some b
  | byte :: rest =>
    match b.pushByte byte with
    | none => none
    | some b2 => b2.push rest

/-- Embedding of `RingBuffer::as_slice`. -/
def RingBuffer.as_slice (b : RingBuffer) : List Nat := b.data

/-- Embedding of `RingBuffer::clear`. -/
def RingBuffer.clear (b : RingBuffer) : RingBuffer :=
  { b with data := [] }

/-- A call against the ring buffer API: one `push` with a byte chunk, or
one `clear`. -/
inductive BufOp where
  | push (bytes : List Nat)
  | clear
deriving DecidableEq

/-- Run a sequence of API calls against a ring buffer, propagating a
panic of any call. -/
def runOps (b : RingBuffer) : List BufOp → Option RingBuffer
  | [] => some b
  | BufOp.push bs :: rest =>
    match b.push bs with
    | none => none
    | some b2 => runOps b2 rest
  | BufOp.clear :: rest => runOps b.clear rest

/-- All bytes pushed since the most recent `clear` in the call sequence
(all pushed bytes when no `clear` occurs), in push order, starting from
the accumulated bytes `l`. -/
def pushedFrom (l : List Nat) (ops : List BufOp) : List Nat :=
  ops.foldl
    (fun acc op =>
      match op with
      | BufOp.push bs => acc ++ bs
      | BufOp.clear => []) l

/-- All bytes pushed since the most recent `clear` of the sequence. -/
def pushedSinceClear (ops : List BufOp) : List Nat :=
  pushedFrom [] ops

/-- The last `c` elements of a list (the whole list when it is shorter
than `c`). -/
def lastN (c : Nat) (l : List Nat) : List Nat :=
  l.drop (l.length - c)

/-- The read contract as the specification words it, written from the
spec text and not from the source: zero bytes read is returned as
success with an empty sequence, a would-block failure is likewise
normalized to empty success, `n > 0` bytes become success with those
bytes, and any other OS failure becomes `ReadError` carrying the
failure's rendered message. -/
def readContractSpec (o : Except IOError (List Nat)) :
    Except PtyError (List Nat) :=
  match o with
  | .ok bs => .ok bs
  | .error e =>
    match e.kind with
    | .wouldBlock => .ok []
    | .other => .error (.ReadError e.msg)

/-- C6: `read` normalizes recoverable conditions to success — a
zero-byte read and a would-block failure both yield `Ok []`, `n > 0`
bytes yield exactly those bytes, and every other OS failure yields
`ReadError` carrying the failure's message; `read` never errors on EOF
or would-block.  Stated as: `read` coincides with the contract written
from the spec text, on every outcome of the underlying read. -/
theorem read_meets_spec_contract (st : PtyManager)
    (o : Except IOError (List Nat)) : st.read o = readContractSpec o := by
  cases o with
  | ok bs => cases bs <;> rfl
  | error e =>
    obtain ⟨k, m⟩ := e
    cases k <;> rfl

/-- C8: `StreamAnalyzer.analyze` returns `ContentType.Normal` on every
input chunk, the empty chunk included — the classifier is constant. -/
theorem analyze_always_normal (a : StreamAnalyzer) (data : List Nat) :
    a.analyze data = ContentType.Normal := rfl

/-- C1 (code bug): evaluation at the failing input.  A session built
with size 24×80 is returned by `new`; a `resize` to 40×120 whose
underlying PTY reconfiguration succeeds returns `Ok` and leaves the
state untouched (`resize` takes `&self` and never writes the cached
`size` field); the subsequent `size()` read-back still yields 24×80,
not the 40×120 the claim requires. -/
theorem resize_leaves_cached_size_stale :
    PtyManager.new "claude" [] envAllOk ⟨24, 80⟩ = .ok session0 ∧
    session0.resize ⟨40, 120⟩ (.ok ()) = .ok (session0, ()) ∧
    session0.size = ⟨24, 80⟩ ∧ session0.size ≠ ⟨40, 120⟩ :=
  ⟨rfl, rfl, rfl, by decide⟩

/-- C2 (counterexample): a failing `resize` returns `CreateError` — the
create-phase variant the claim explicitly rules out — and failing
`wait` and `kill` both return `SpawnError`, the spawn-phase variant;
the enum has no `ResizeError`, `WaitError` or `KillError` at all. -/
theorem resize_error_is_create_tagged :
    session0.resize ⟨40, 120⟩ (.error ⟨IOErrorKind.other, "boom"⟩) =
      .error (.CreateError "boom") ∧
    PtyManager.wait (.error ⟨IOErrorKind.other, "boom"⟩) =
      .error (.SpawnError "boom") ∧
    PtyManager.kill (.error ⟨IOErrorKind.other, "boom"⟩) =
      .error (.SpawnError "boom") :=
  ⟨rfl, rfl, rfl⟩

/-- C2 (amended): every `resize` failure is reported as `CreateError`
carrying only the OS failure's rendered message (the attempted
dimensions are not recorded), and every `wait` or `kill` failure is
reported as `SpawnError`; on success `resize` returns the state
unchanged, `wait` returns the exit status, and `kill` returns unit. -/
theorem lifecycle_error_phases :
    (∀ (st : PtyManager) (ns : PtySize) (e : IOError),
      st.resize ns (.error e) = .error (.CreateError e.msg)) ∧
    (∀ e : IOError, PtyManager.wait (.error e) = .error (.SpawnError e.msg)) ∧
    (∀ e : IOError, PtyManager.kill (.error e) = .error (.SpawnError e.msg)) ∧
    (∀ (st : PtyManager) (ns : PtySize), st.resize ns (.ok ()) = .ok (st, ())) ∧
    (∀ c : Nat, PtyManager.wait (.ok c) = .ok c) ∧
    PtyManager.kill (.ok ()) = .ok () :=
  ⟨fun _ _ _ => rfl, fun _ => rfl, fun _ => rfl, fun _ _ => rfl,
   fun _ => rfl, rfl⟩

/-- C3 (counterexample): on a would-block failure of the underlying
read, `read` returns `Ok []` but `read_async` (with the background
dispatch itself succeeding) returns `ReadError` — the two results
differ, refuting the claimed case-by-case equality. -/
theorem read_async_would_block_mismatch :
    session0.read (.error ⟨IOErrorKind.wouldBlock, "wb"⟩) = .ok [] ∧
    session0.read_async .joined (.error ⟨IOErrorKind.wouldBlock, "wb"⟩) =
      .error (.ReadError "wb") ∧
    session0.read_async .joined (.error ⟨IOErrorKind.wouldBlock, "wb"⟩) ≠
      session0.read (.error ⟨IOErrorKind.wouldBlock, "wb"⟩) :=
  ⟨rfl, rfl, fun h => Except.noConfusion h⟩

/-- C3 (amended): `read_async` produces the same result as `read` for
every successful underlying read (`n > 0` bytes and the zero-byte EOF
case) and for every OS failure other than would-block; a would-block
failure, however, becomes `ReadError` instead of the `Ok []` that
`read` produces; and a failure to join the background task also
surfaces as `ReadError`. -/
theorem read_async_agrees_except_would_block (st : PtyManager) :
    (∀ bs : List Nat, st.read_async .joined (.ok bs) = st.read (.ok bs)) ∧
    (∀ m : String,
      st.read_async .joined (.error ⟨IOErrorKind.other, m⟩) =
        st.read (.error ⟨IOErrorKind.other, m⟩)) ∧
    (∀ m : String,
      st.read_async .joined (.error ⟨IOErrorKind.wouldBlock, m⟩) =
        .error (.ReadError m)) ∧
    (∀ (m : String) (o : Except IOError (List Nat)),
      st.read_async (.joinFailed m) o = .error (.ReadError m)) := by
  refine ⟨fun bs => ?_, fun m => rfl, fun m => rfl, fun m o => rfl⟩
  cases bs <;> rfl

/-- C4 (counterexample): an OS failure flowing into `wait` is flattened
to its message — the resulting `SpawnError` has no retrievable source —
and two distinct underlying failures (differing in kind) collapse to
the very same error value, so the original failure object cannot be
recovered from the returned error. -/
theorem flattened_cause_not_retrievable :
    PtyManager.wait (.error ⟨IOErrorKind.other, "boom"⟩) =
      .error (.SpawnError "boom") ∧
    PtyError.source (.SpawnError "boom") = none ∧
    PtyManager.wait (.error ⟨IOErrorKind.wouldBlock, "boom"⟩) =
      PtyManager.wait (.error ⟨IOErrorKind.other, "boom"⟩) :=
  ⟨rfl, rfl, rfl⟩

/-- C4 (amended): only the `IoError` variant retains its underlying
failure as a retrievable source; `CreateError`, `SpawnError`,
`ReadError` and `WriteError` are built from the failure's rendered
message alone and expose no source, as the operation embeddings show. -/
theorem only_io_error_retains_cause :
    (∀ m : String, (PtyError.CreateError m).source = none) ∧
    (∀ m : String, (PtyError.SpawnError m).source = none) ∧
    (∀ m : String, (PtyError.ReadError m).source = none) ∧
    (∀ m : String, (PtyError.WriteError m).source = none) ∧
    PtyError.ProcessExited.source = none ∧
    (∀ e : IOError, (PtyError.IoError e).source = some e) ∧
    (∀ (st : PtyManager) (ns : PtySize) (e : IOError),
      st.resize ns (.error e) = .error (.CreateError e.msg) ∧
      PtyManager.wait (.error e) = .error (.SpawnError e.msg) ∧
      PtyManager.kill (.error e) = .error (.SpawnError e.msg) ∧
      (st.read (.error e) = .ok [] ∨
        st.read (.error e) = .error (.ReadError e.msg))) :=
  ⟨fun _ => rfl, fun _ => rfl, fun _ => rfl, fun _ => rfl, rfl,
   fun _ => rfl, fun st ns e => by
    obtain ⟨k, m⟩ := e
    cases k
    · exact ⟨rfl, rfl, rfl, Or.inl rfl⟩
    · exact ⟨rfl, rfl, rfl, Or.inr rfl⟩⟩

/-- C5 (counterexample): a flush-step failure and a write-step failure
with the same OS message produce the very same error value, namely
`WriteError` with that message — the two failure modes are reported
with the same variant, so a caller cannot tell
delivery-succeeded-but-flush-failed apart from delivery-failed. -/
theorem flush_failure_indistinguishable :
    session0.write [104, 105] (.ok ()) (.error ⟨IOErrorKind.other, "boom"⟩) =
      .error (.WriteError "boom") ∧
    session0.write [104, 105] (.error ⟨IOErrorKind.other, "boom"⟩) (.ok ()) =
      .error (.WriteError "boom") ∧
    session0.write [104, 105] (.ok ()) (.error ⟨IOErrorKind.other, "boom"⟩) =
      session0.write [104, 105] (.error ⟨IOErrorKind.other, "boom"⟩) (.ok ()) :=
  ⟨rfl, rfl, rfl⟩

/-- C5 (amended): `write` returns `Ok` exactly when both the write step
(full delivery) and the flush step succeed; a failure of either step is
reported as `WriteError` carrying the OS message — the same variant for
both steps, so they are not distinguishable by variant; and `write_str`
delegates to `write` on the UTF-8 bytes of its string. -/
theorem write_all_or_error (st : PtyManager) (data : List Nat) (s : String)
    (wo fo : Except IOError Unit) :
    (st.write data wo fo = .ok () ↔ wo = .ok () ∧ fo = .ok ()) ∧
    (∀ e : IOError, st.write data (.error e) fo = .error (.WriteError e.msg)) ∧
    (∀ e : IOError,
      st.write data (.ok ()) (.error e) = .error (.WriteError e.msg)) ∧
    st.write_str s wo fo = st.write (strBytes s) wo fo := by
  refine ⟨?_, fun e => rfl, fun e => rfl, rfl⟩
  cases wo with
  | error e => simp [PtyManager.write]
  | ok u =>
    cases u
    cases fo with
    | error e => simp [PtyManager.write]
    | ok v => cases v; simp [PtyManager.write]

/-- C7: `new` is all-or-nothing.  Each construction step that fails
yields exactly the phase-typed error of the claim (`CreateError` for
PTY allocation and for writer/reader acquisition, `SpawnError` for
spawning); when all four resource acquisitions succeed the session is
returned with all four resource fields populated with the acquired
handles; success happens exactly when all four acquisitions succeed
(never a partially-constructed session); the result is independent of
the working-directory outcome, and a failed working-directory read
merely omits `cwd` from the built command. -/
theorem new_all_or_nothing (command : String) (args : List String)
    (size : PtySize) :
    (∀ (e : IOError) (sp tw cr : Except IOError Nat)
        (cd : Except IOError String),
      PtyManager.new command args ⟨.error e, sp, tw, cr, cd⟩ size =
        .error (.CreateError e.msg)) ∧
    (∀ (m : Nat) (e : IOError) (tw cr : Except IOError Nat)
        (cd : Except IOError String),
      PtyManager.new command args ⟨.ok m, .error e, tw, cr, cd⟩ size =
        .error (.SpawnError e.msg)) ∧
    (∀ (m ch : Nat) (e : IOError) (cr : Except IOError Nat)
        (cd : Except IOError String),
      PtyManager.new command args ⟨.ok m, .ok ch, .error e, cr, cd⟩ size =
        .error (.CreateError e.msg)) ∧
    (∀ (m ch w : Nat) (e : IOError) (cd : Except IOError String),
      PtyManager.new command args ⟨.ok m, .ok ch, .ok w, .error e, cd⟩ size =
        .error (.CreateError e.msg)) ∧
    (∀ (m ch w r : Nat) (cd : Except IOError String),
      PtyManager.new command args ⟨.ok m, .ok ch, .ok w, .ok r, cd⟩ size =
        .ok { master := m, writer := w, reader := r, child := ch,
              size := size }) ∧
    (∀ env : NewEnv,
      (∃ st, PtyManager.new command args env size = .ok st) ↔
        ((∃ m, env.openpty = .ok m) ∧ (∃ ch, env.spawn = .ok ch) ∧
         (∃ w, env.takeWriter = .ok w) ∧ (∃ r, env.cloneReader = .ok r))) ∧
    (∀ (op sp tw cr : Except IOError Nat) (cd cd2 : Except IOError String),
      PtyManager.new command args ⟨op, sp, tw, cr, cd⟩ size =
        PtyManager.new command args ⟨op, sp, tw, cr, cd2⟩ size) ∧
    (∀ e : IOError, (buildCommand command args (.error e)).cwd = none) := by
  refine ⟨fun e sp tw cr cd => rfl, fun m e tw cr cd => rfl,
    fun m ch e cr cd => rfl, fun m ch w e cd => rfl,
    fun m ch w r cd => rfl, ?_, ?_, fun e => rfl⟩
  · rintro ⟨op, sp, tw, cr, cd⟩
    cases op <;> cases sp <;> cases tw <;> cases cr <;>
      simp [PtyManager.new]
  · intro op sp tw cr cd cd2
    cases op <;> cases sp <;> cases tw <;> cases cr <;> rfl

theorem length_lastN (c : Nat) (l : List Nat) :
    (lastN c l).length = min c l.length := by
  simp [lastN]
  omega

theorem lastN_of_le (c : Nat) (l : List Nat) (h : l.length ≤ c) :
    lastN c l = l := by
  unfold lastN
  rw [Nat.sub_eq_zero_of_le h]
  rfl

theorem drop_append_le {α : Type} :
    ∀ (n : Nat) (l m : List α), n ≤ l.length →
      (l ++ m).drop n = l.drop n ++ m := by
  intro n
  induction n with
  | zero => intro l m _; rfl
  | succ k ih =>
    intro l m h
    cases l with
    | nil => simp at h
    | cons a t =>
      simpa using ih t m (by simpa using h)

theorem lastN_append_single (c : Nat) (hc : 1 ≤ c) (l : List Nat) (x : Nat) :
    lastN c (lastN c l ++ [x]) = lastN c (l ++ [x]) := by
  by_cases h : l.length ≤ c
  · rw [lastN_of_le c l h]
  · push_neg at h
    unfold lastN
    have h1 : (l.drop (l.length - c) ++ [x]).length - c = 1 := by
      simp
      omega
    have h2 : (l ++ [x]).length - c = l.length - c + 1 := by
      simp
      omega
    rw [h1, h2]
    rw [drop_append_le 1 _ [x] (by simp; omega)]
    rw [drop_append_le (l.length - c + 1) l [x] (by omega)]
    rw [List.drop_drop]

theorem pushByte_lastN (c : Nat) (hc : 1 ≤ c) (d : List Nat)
    (hd : d.length ≤ c) (x : Nat) :
    RingBuffer.pushByte ⟨c, d⟩ x = some ⟨c, lastN c (d ++ [x])⟩ := by
  by_cases h : d.length ≥ c
  · have hlen : d.length = c := le_antisymm hd h
    cases d with
    | nil => simp at hlen; omega
    | cons a t =>
      simp only [RingBuffer.pushByte]
      rw [if_pos h]
      simp only [removeFront]
      have h1 : lastN c (a :: t ++ [x]) = t ++ [x] := by
        unfold lastN
        have h2 : (a :: t ++ [x]).length - c = 1 := by
          simp
          simp at hlen
          omega
        rw [h2]
        rfl
      rw [h1]
  · simp only [RingBuffer.pushByte]
    rw [if_neg h]
    rw [lastN_of_le c (d ++ [x]) (by simp; omega)]

theorem push_lastN (c : Nat) (hc : 1 ≤ c) :
    ∀ (bs l : List Nat),
      RingBuffer.push ⟨c, lastN c l⟩ bs = some ⟨c, lastN c (l ++ bs)⟩ := by
  intro bs
  induction bs with
  | nil => intro l; simp [RingBuffer.push]
  | cons x rest ih =>
    intro l
    have hlen : (lastN c l).length ≤ c := by
      rw [length_lastN]
      omega
    simp only [RingBuffer.push]
    rw [pushByte_lastN c hc (lastN c l) hlen x, lastN_append_single c hc l x]
    show RingBuffer.push ⟨c, lastN c (l ++ [x])⟩ rest = _
    rw [ih (l ++ [x])]
    simp [List.append_assoc]

theorem runOps_lastN (c : Nat) (hc : 1 ≤ c) :
    ∀ (ops : List BufOp) (l : List Nat),
      runOps ⟨c, lastN c l⟩ ops = some ⟨c, lastN c (pushedFrom l ops)⟩ := by
  intro ops
  induction ops with
  | nil => intro l; simp [runOps, pushedFrom]
  | cons op rest ih =>
    intro l
    cases op with
    | push bs =>
      simp only [runOps]
      rw [push_lastN c hc bs l]
      show runOps ⟨c, lastN c (l ++ bs)⟩ rest = _
      rw [ih (l ++ bs)]
      simp [pushedFrom]
    | clear =>
      show runOps ⟨c, []⟩ rest = _
      have h0 : (⟨c, []⟩ : RingBuffer) = ⟨c, lastN c []⟩ := by
        simp [lastN]
      rw [h0, ih []]
      simp [pushedFrom]

/-- C9: for a ring buffer of capacity `c ≥ 1`, after any sequence of
`push` and `clear` calls no call panics, and `as_slice` returns exactly
the last `min c n` of the `n` bytes pushed since the most recent
`clear`, in push order — in particular its length never exceeds `c`. -/
theorem ring_buffer_window (c : Nat) (hc : 1 ≤ c) (ops : List BufOp) :
    runOps (RingBuffer.new c) ops =
      some ⟨c, lastN c (pushedSinceClear ops)⟩ ∧
    RingBuffer.as_slice ⟨c, lastN c (pushedSinceClear ops)⟩ =
      lastN c (pushedSinceClear ops) ∧
    (lastN c (pushedSinceClear ops)).length ≤ c := by
  refine ⟨?_, rfl, ?_⟩
  · have h0 : RingBuffer.new c = ⟨c, lastN c []⟩ := by
      simp [RingBuffer.new, lastN]
    rw [h0, runOps_lastN c hc ops []]
    rfl
  · rw [length_lastN]
    omega

/-- Concrete call sequence used to witness `ring_buffer_window`. -/
def opsW : List BufOp :=
  [BufOp.push [1, 2, 3], BufOp.clear, BufOp.push [4, 5, 6]]

/-- Witness for `ring_buffer_window`: at capacity 2, pushing three
bytes, clearing, and pushing `[4, 5, 6]` retains exactly `[5, 6]`. -/
theorem ring_buffer_window_witness :
    runOps (RingBuffer.new 2) opsW = some ⟨2, [5, 6]⟩ ∧
    ([5, 6] : List Nat).length ≤ 2 := by
  have h := ring_buffer_window 2 (by decide) opsW
  exact ⟨h.1.trans rfl, by decide⟩

/-- C10: `push` is total only when the capacity is at least 1.  On a
buffer created with `new 0`, pushing any non-empty chunk reaches the
eviction branch with an empty backing vector, and `Vec::remove(0)`
panics there — rendered in the model as the `none` result. -/
theorem push_capacity_zero_panics (bytes : List Nat) (h : bytes ≠ []) :
    RingBuffer.push (RingBuffer.new 0) bytes = none := by
  cases bytes with
  | nil => exact absurd rfl h
  | cons b rest => rfl

/-- Witness for `push_capacity_zero_panics` on the one-byte chunk `[7]`. -/
theorem push_capacity_zero_panics_witness :
    ([7] : List Nat) ≠ [] ∧
    RingBuffer.push (RingBuffer.new 0) [7] = none :=
  ⟨by decide, push_capacity_zero_panics [7] (by decide)⟩
